import Mathlib

/-!
Shallow embedding of the chain-backend bootstrap layer of the repository
(files backend_bitcoind.go, backend_neutrino.go and the unnamed btcd backend
file).  Pure data flow is translated directly; the fallible external
collaborators (filesystem, RPC clients, wallet library) are modelled as
explicit inputs: a filesystem is a function from path to optional contents,
and each fallible construction step has a Boolean outcome supplied in an
environment record.  Every error `return nil, nil, err` in the source is
one error branch of the corresponding Lean function.
-/

set_option maxRecDepth 4000
set_option maxHeartbeats 1600000

deriving instance DecidableEq for Except

/-! ## Config-text scanning

The Go code locates keys in a node configuration file with regular
expressions of the shape `(?m)^\s*KEY\s*=\s*([^\s]+)` and
`FindSubmatch` (leftmost match wins).  With the multiline flag, `^`
anchors at the start of each line; since `KEY` begins with a non-space
character, a match at a given line start exists exactly when, after
skipping whitespace (which in RE2 is `[\t\n\f\r ]` and may cross line
breaks), the text continues with `KEY`, optional whitespace, `=`,
optional whitespace, and a nonempty maximal run of non-whitespace
characters, which is the captured value.  `scanKey` tries each line
start in order, which reproduces the leftmost-match semantics. -/

def isWSpace (c : Char) : Bool :=
  c = ' ' || c = '\t' || c = '\n' || c = '\r' || c = '\x0c'

/-- Attempt the pattern `\s*KEY\s*=\s*([^\s]+)` at one anchor position. -/
def tryMatchAt (key cs : List Char) : Option (List Char) :=
  let cs1 := cs.dropWhile isWSpace
  if key.isPrefixOf cs1 then
    let cs2 := cs1.drop key.length
    let cs3 := cs2.dropWhile isWSpace
    match cs3 with
    | '=' :: cs4 =>
      let v := (cs4.dropWhile isWSpace).takeWhile (fun c => !(isWSpace c))
      if v.isEmpty then none else some v
    | _ => none
  else none

/-- Try the pattern at every line start, first match wins. -/
def scanKeyAux (key : List Char) : List Char → Bool → Option (List Char)
  | [], _ => none
  | c :: rest, atStart =>
    if atStart then
      match tryMatchAt key (c :: rest) with
      | some v => some v
      | none => scanKeyAux key rest (c == '\n')
    else scanKeyAux key rest (c == '\n')

/-- Model of `regexp.FindSubmatch` for the patterns used in the source:
the value of the first line-anchored `key = value` occurrence. -/
def scanKey (key cs : List Char) : Option (List Char) :=
  scanKeyAux key cs true

def zmqKeyChars : List Char := "zmqpubrawblock".toList
def datadirKeyChars : List Char := "datadir".toList
def rpcuserKeyChars : List Char := "rpcuser".toList
def rpcpassKeyChars : List Char := "rpcpass".toList
def rpcpasswordKeyChars : List Char := "rpcpassword".toList

/-- Model of Go `strings.Split s ":"`: splitting on every colon, so a
string with `n` colons yields `n + 1` fields. -/
def splitOnColon : List Char → List (List Char)
  | [] => [[]]
  | ':' :: rest => [] :: splitOnColon rest
  | c :: rest =>
    match splitOnColon rest with
    | [] => [[c]]
    | h :: t => (c :: h) :: t

/-- Per-network cookie sub-directory, from the `switch
activeNetParams.Params.Name` in `extractBitcoindRPCParams`. -/
def chainSubDir (netName : String) : List Char :=
  if netName = "testnet3" then "/testnet3/".toList
  else if netName = "testnet4" then "/testnet4/".toList
  else if netName = "regtest" then "/regtest/".toList
  else "/".toList

/-- The cookie-file path derived in `extractBitcoindRPCParams`:
`dataDir + chainDir + ".cookie"`, where `dataDir` is the value of a
`datadir` key in the config text if present, else the directory of the
config file (passed here as `defaultDataDir`). -/
def bitcoindCookiePath (contents defaultDataDir : List Char) (netName : String) :
    List Char :=
  let dataDir := (scanKey datadirKeyChars contents).getD defaultDataDir
  dataDir ++ chainSubDir netName ++ ".cookie".toList

/-- Embedding of `extractBitcoindRPCParams`.  `configContents` is the
result of opening and reading the config file (`none` on any I/O
failure); `readCookie` is the filesystem restricted to cookie reads.
Returns `(rpcuser, rpcpass, zmqpath)`. -/
def extractBitcoindRPCParams (configContents : Option (List Char))
    (defaultDataDir : List Char) (netName : String)
    (readCookie : List Char → Option (List Char)) :
    Except String (List Char × List Char × List Char) :=
  match configContents with
  | none => .error "unable to open bitcoind config file"
  | some contents =>
    match scanKey zmqKeyChars contents with
    | none => .error "unable to find zmqpubrawblock in config"
    | some zmqPath =>
      let viaCookie : Option (List Char × List Char) :=
        match readCookie (bitcoindCookiePath contents defaultDataDir netName) with
        | some cookie =>
          match splitOnColon cookie with
          | [u, p] => some (u, p)
          | _ => none
        | none => none
      match viaCookie with
      | some (u, p) => .ok (u, p, zmqPath)
      | none =>
        match scanKey rpcuserKeyChars contents with
        | none => .error "unable to find rpcuser in config"
        | some u =>
          match scanKey rpcpasswordKeyChars contents with
          | none => .error "unable to find rpcpassword in config"
          | some p => .ok (u, p, zmqPath)

/-- Embedding of `extractBtcdRPCParams`.  The error message of the
missing-`rpcpass` branch reproduces the source literally: it says
`rpcuser` although the `rpcpass` lookup is the one that failed. -/
def extractBtcdRPCParams (configContents : Option (List Char)) :
    Except String (List Char × List Char) :=
  match configContents with
  | none => .error "unable to open btcd config file"
  | some contents =>
    match scanKey rpcuserKeyChars contents with
    | none => .error "unable to find rpcuser in config"
    | some u =>
      match scanKey rpcpassKeyChars contents with
      | none => .error "unable to find rpcuser in config"
      | some p => .ok (u, p)

example :
    extractBtcdRPCParams (some "rpcuser=alice\nrpcpass=secret".toList) =
      .ok ("alice".toList, "secret".toList) := by decide

example :
    extractBtcdRPCParams (some "rpcuser=alice\nrpcpassword=secret".toList) =
      .error "unable to find rpcuser in config" := by decide

example :
    extractBitcoindRPCParams
      (some "zmqpubrawblock=tcp\nrpcuser=alice\nrpcpassword=secret".toList)
      "/d".toList "mainnet" (fun _ => none) =
      .ok ("alice".toList, "secret".toList, "tcp".toList) := by decide

example :
    extractBitcoindRPCParams
      (some "zmqpubrawblock=tcp\nrpcuser=alice\nrpcpassword=secret".toList)
      "/d".toList "mainnet" (fun _ => some "bob:hunter2".toList) =
      .ok ("bob".toList, "hunter2".toList, "tcp".toList) := by decide

/-! ## Numeric parsing and TLS material -/

def digitsValAux : List Char → Nat → Option Nat
  | [], acc => some acc
  | c :: rest, acc =>
    if c.isDigit then digitsValAux rest (acc * 10 + (c.toNat - 48)) else none

def digitsVal : List Char → Option Nat
  | [] => none
  | cs => digitsValAux cs 0

/-- Model of Go `strconv.Atoi` (overflow elided: all canonical RPC port
strings are small). -/
def goAtoi (s : String) : Option Int :=
  match s.toList with
  | '-' :: rest => (digitsVal rest).map (fun n => -(n : Int))
  | '+' :: rest => (digitsVal rest).map (fun n => (n : Int))
  | cs => (digitsVal cs).map (fun n => (n : Int))

def hexDigitVal (c : Char) : Option Nat :=
  if '0' ≤ c ∧ c ≤ '9' then some (c.toNat - 48)
  else if 'a' ≤ c ∧ c ≤ 'f' then some (c.toNat - 87)
  else if 'A' ≤ c ∧ c ≤ 'F' then some (c.toNat - 55)
  else none

/-- Model of Go `hex.DecodeString`: pairs of hex digits to bytes; an odd
length or a non-hex character is an error (`none`). -/
def hexDecodeList : List Char → Option (List Nat)
  | [] => some []
  | [_] => none
  | c1 :: c2 :: rest =>
    match hexDigitVal c1, hexDigitVal c2, hexDecodeList rest with
    | some hi, some lo, some bs => some ((16 * hi + lo) :: bs)
    | _, _, _ => none

def hexDecodeString (s : String) : Option (List Nat) := hexDecodeList s.toList

/-- Embedding of the TLS-certificate loading block of the btcd
(stream-backend) builder.  `certFS` maps a file path to its bytes
(`none` when `os.Open`, `ReadAll` or `Close` fails; in particular the
operating system fails `os.Open ""`, so an absent path is modelled by a
filesystem that returns `none` on `""`). -/
def loadRPCCert (rawRPCCert rpcCert : String) (certFS : String → Option (List Nat)) :
    Except String (List Nat) :=
  if rawRPCCert ≠ "" then
    match hexDecodeString rawRPCCert with
    | none => .error "invalid hex in rawrpccert"
    | some bs => .ok bs
  else
    match certFS rpcCert with
    | none => .error "unable to read RPC cert file"
    | some bs => .ok bs

/-! ## Host resolution -/

/-- Embedding of the btcd (stream-backend) host resolution: a host that
already contains a port separator is used verbatim, otherwise the
canonical RPC port of the active network parameters is appended. -/
def resolveBtcdHost (rpcHost rpcPort : String) : String :=
  if rpcHost.toList.contains ':' then rpcHost
  else rpcHost ++ ":" ++ rpcPort

/-- Embedding of the bitcoind (event-backend) host resolution: verbatim
when a port separator is present; otherwise the canonical port string is
parsed (`strconv.Atoi`, an error aborts construction), 2 is subtracted,
and on an active Bitcoin regtest network a probe dial to that address is
attempted (`dialOk` is its outcome) with the well-known alternate port
18443 substituted when the dial fails. -/
def resolveBitcoindHost (rpcHost rpcPort : String)
    (bitcoinActive bitcoinRegTest dialOk : Bool) : Except String String :=
  if rpcHost.toList.contains ':' then .ok rpcHost
  else
    match goAtoi rpcPort with
    | none => .error "invalid rpc port"
    | some p =>
      let host := rpcHost ++ ":" ++ toString (p - 2)
      if bitcoinActive && bitcoinRegTest then
        if dialOk then .ok host
        else .ok (rpcHost ++ ":" ++ toString (18443 : Int))
      else .ok host

example : resolveBtcdHost "localhost" "18334" = "localhost:18334" := by decide
example : resolveBitcoindHost "localhost" "18334" false false true =
    .ok "localhost:18332" := by decide
example : resolveBitcoindHost "localhost" "18334" true true false =
    .ok "localhost:18443" := by decide

/-! ## Configuration records and credential resolution -/

inductive ChainCode
  | bitcoinChain
  | litecoinChain
  | unknownChain
deriving DecidableEq

structure ChainConfig where
  active : Bool
  simNet : Bool
  regTest : Bool
  minHTLC : Nat
  baseFee : Nat
  feeRate : Nat
  timeLockDelta : Nat
  chainDir : String
deriving DecidableEq

structure Config where
  bitcoin : ChainConfig
  litecoin : ChainConfig
deriving DecidableEq

/-- Active network parameters (the fields this layer reads: the
canonical RPC port, kept as the string it is in the source, and the
network name used for cookie sub-paths). -/
structure NetParams where
  rpcPort : String
  name : String
deriving DecidableEq

structure BitcoindConf where
  rpcUser : String
  rpcPass : String
  zmqPath : String
  dir : String
  rpcHost : String
deriving DecidableEq

structure BtcdConf where
  rpcUser : String
  rpcPass : String
  rawRPCCert : String
  rpcCert : String
  dir : String
  rpcHost : String
deriving DecidableEq

def daemonNameFor (net : ChainCode) : String :=
  match net with
  | .bitcoinChain => "btcd"
  | .litecoinChain => "ltcd"
  | .unknownChain => ""

/-- Embedding of `(*bitcoindConfig).ParseRPCParams`.  The filesystem
arguments stand for all file I/O of the discovery path; the explicit
early returns never consult them.  `filepath.Join` and `path.Dir` are
modelled by plain separator concatenation and last-segment removal
(`goPathDir`), adequate for the clean paths this layer builds. -/
def goPathDir (p : List Char) : List Char :=
  match (p.reverse).dropWhile (fun c => c ≠ '/') with
  | [] => ['.']
  | ['/'] => ['/']
  | _ :: rest => rest.reverse

def bitcoindConfFile (conf : BitcoindConf) (net : ChainCode) : String :=
  match net with
  | .bitcoinChain => conf.dir ++ "/bitcoin.conf"
  | .litecoinChain => conf.dir ++ "/litecoin.conf"
  | .unknownChain => ".conf"

def bitcoindParseRPCParams (conf : BitcoindConf) (cConfig : ChainConfig)
    (net : ChainCode) (funcName : String)
    (fs : List Char → Option (List Char))
    (readCookie : List Char → Option (List Char)) (netName : String) :
    Except String BitcoindConf :=
  let daemonName := daemonNameFor net
  if conf.rpcUser ≠ "" ∧ conf.rpcPass ≠ "" ∧ conf.zmqPath ≠ "" then .ok conf
  else if conf.rpcUser ≠ "" ∨ conf.rpcPass ≠ "" ∨ conf.zmqPath ≠ "" then
    .error ("please set all or none of " ++ daemonName ++ ".rpcuser, " ++
      daemonName ++ ".rpcpass, and " ++ daemonName ++ ".zmqpath")
  else if cConfig.simNet then
    .error (funcName ++
      ": rpcuser and rpcpass must be set to your btcd node RPC parameters for simnet mode")
  else
    let confFile := bitcoindConfFile conf net
    match extractBitcoindRPCParams (fs confFile.toList)
        (goPathDir confFile.toList) netName readCookie with
    | .error e =>
      .error ("unable to extract RPC credentials: " ++ e ++
        ", cannot start w/o RPC connection")
    | .ok (u, p, z) =>
      .ok { conf with rpcUser := String.mk u, rpcPass := String.mk p,
                      zmqPath := String.mk z }

def btcdConfFile (conf : BtcdConf) (net : ChainCode) : String :=
  match net with
  | .bitcoinChain => conf.dir ++ "/btcd.conf"
  | .litecoinChain => conf.dir ++ "/ltcd.conf"
  | .unknownChain => ".conf"

/-- Embedding of `(*btcdConfig).ParseRPCParams`. -/
def btcdParseRPCParams (conf : BtcdConf) (cConfig : ChainConfig)
    (net : ChainCode) (funcName : String)
    (fs : List Char → Option (List Char)) :
    Except String BtcdConf :=
  let daemonName := daemonNameFor net
  if conf.rpcUser ≠ "" ∧ conf.rpcPass ≠ "" then .ok conf
  else if conf.rpcUser ≠ "" ∨ conf.rpcPass ≠ "" then
    .error ("please set both or neither of " ++ daemonName ++ ".rpcuser, " ++
      daemonName ++ ".rpcpass")
  else if cConfig.simNet then
    .error (funcName ++
      ": rpcuser and rpcpass must be set to your btcd node RPC parameters for simnet mode")
  else
    match extractBtcdRPCParams (fs (btcdConfFile conf net).toList) with
    | .error e =>
      .error ("unable to extract RPC credentials: " ++ e ++
        ", cannot start w/o RPC connection")
    | .ok (u, p) =>
      .ok { conf with rpcUser := String.mk u, rpcPass := String.mk p }

/-- Embedding of `(*neutrinoConfig).ParseRPCParams`: the light client
needs no RPC parameters and immediately returns nil. -/
def neutrinoParseRPCParams (_cConfig : ChainConfig) (_net : ChainCode)
    (_funcName : String) : Except String Unit :=
  .ok ()

/-! ## Chain control construction

The three `NewChainControlFromConfig` variants.  Each fallible external
construction step (notifier, chain view, RPC client, wallet library,
filesystem) is given its outcome by an environment record; the builder
also emits a trace of the side-effecting calls it performed, in order,
so that sequencing facts (service started before the wallet is built;
nothing is stopped or closed on an error path) are propositions about
the trace. -/

/-- Modelled from the spec: the network-specific static default fee
rates (`defaultBitcoinStaticFeeRate`, `defaultLitecoinStaticFeeRate`
are referenced but not defined in the shown source; their concrete
values are irrelevant to every claim). -/
def defaultBitcoinStaticFeeRate : Nat := 50

/-- Modelled from the spec: see `defaultBitcoinStaticFeeRate`. -/
def defaultLitecoinStaticFeeRate : Nat := 200

inductive FeeEst
  | static (rate : Nat)
  | bitcoindLive (fallback : Nat)
  | btcdLive (fallback : Nat)
deriving DecidableEq

inductive Handle
  | bitcoindNotifier
  | bitcoindChainView
  | btcdNotifier
  | btcdChainView
  | neutrinoNotifier
  | cfChainView
  | btcwalletController
  | lightningWallet
deriving DecidableEq

structure RoutingPolicy where
  minHTLC : Nat
  baseFee : Nat
  feeRate : Nat
  timeLockDelta : Nat
deriving DecidableEq

/-- The `chainControl` bundle: `msgSigner`, `signer` and `chainIO` are
all set to the wallet controller, `wallet` to the started lightning
wallet, exactly as in the source. -/
structure ChainControl where
  routingPolicy : RoutingPolicy
  feeEstimator : FeeEst
  chainNotifier : Handle
  chainView : Handle
  msgSigner : Handle
  signer : Handle
  chainIO : Handle
  wallet : Handle
deriving DecidableEq

inductive Event
  | mkdirAll
  | dbCreate
  | svcStart
  | svcStop
  | dbClose
  | notifierNew
  | chainViewNew
  | connNew
  | feeEstNew
  | feeEstStart
  | walletCtrlNew
  | walletNew
  | walletStartup
  | certRead
deriving DecidableEq

/-- The Go return triple `(*chainControl, func(), error)` plus the
trace of performed side effects.  A cleanup handle is modelled by the
list of release actions it would perform when invoked. -/
structure BuildOut where
  cc : Option ChainControl
  cleanup : Option (List Event)
  err : Option String
  trace : List Event
deriving DecidableEq

/-- The `switch registeredChains.PrimaryChain()` shared verbatim by all
three builders: routing policy and initial static fee estimator for the
primary chain, or the unknown-chain error. -/
def basePolicy (primary : ChainCode) (cfg : Config) :
    Option (RoutingPolicy × FeeEst) :=
  match primary with
  | .bitcoinChain =>
    some (⟨cfg.bitcoin.minHTLC, cfg.bitcoin.baseFee, cfg.bitcoin.feeRate,
           cfg.bitcoin.timeLockDelta⟩,
          .static defaultBitcoinStaticFeeRate)
  | .litecoinChain =>
    some (⟨cfg.litecoin.minHTLC, cfg.litecoin.baseFee, cfg.litecoin.feeRate,
           cfg.litecoin.timeLockDelta⟩,
          .static defaultLitecoinStaticFeeRate)
  | .unknownChain => none

/-- The common tail of all three builders: `btcwallet.New`, keyring,
`lnwallet.NewLightningWallet`, `wallet.Startup`, then the assembled
bundle with the cleanup handle; each failure returns `nil, nil, err`. -/
def walletTail (rp : RoutingPolicy) (fe : FeeEst) (nh vh : Handle)
    (cleanup : Option (List Event)) (tr : List Event)
    (walletCtrlOk walletNewOk walletStartOk : Bool) : BuildOut :=
  if !walletCtrlOk then
    ⟨none, none, some "unable to create wallet controller",
     tr ++ [.walletCtrlNew]⟩
  else if !walletNewOk then
    ⟨none, none, some "unable to create wallet",
     tr ++ [.walletCtrlNew, .walletNew]⟩
  else if !walletStartOk then
    ⟨none, none, some "unable to start wallet",
     tr ++ [.walletCtrlNew, .walletNew, .walletStartup]⟩
  else
    ⟨some ⟨rp, fe, nh, vh, .btcwalletController, .btcwalletController,
           .btcwalletController, .lightningWallet⟩,
     cleanup, none,
     tr ++ [.walletCtrlNew, .walletNew, .walletStartup]⟩

structure BitcoindEnv where
  dialOk : Bool
  notifierOk : Bool
  chainViewOk : Bool
  connOk : Bool
  feeEstNewOk : Bool
  feeEstStartOk : Bool
  walletCtrlOk : Bool
  walletNewOk : Bool
  walletStartOk : Bool
deriving DecidableEq

/-- The fee-estimator switch of the bitcoind builder, with the common
wallet tail: the live estimator is chosen when Bitcoin is active and
not on regtest, otherwise when Litecoin is active; SimNet is never
consulted in this variant. -/
def bitcoindFeeSwitch (rp : RoutingPolicy) (fe0 : FeeEst) (cfg : Config)
    (env : BitcoindEnv) : BuildOut :=
  if cfg.bitcoin.active && !cfg.bitcoin.regTest then
    if !env.feeEstNewOk then
      ⟨none, none, some "unable to create bitcoind fee estimator",
       [.notifierNew, .chainViewNew, .connNew, .feeEstNew]⟩
    else if !env.feeEstStartOk then
      ⟨none, none, some "unable to start bitcoind fee estimator",
       [.notifierNew, .chainViewNew, .connNew, .feeEstNew, .feeEstStart]⟩
    else
      walletTail rp (.bitcoindLive 25) .bitcoindNotifier
        .bitcoindChainView none
        [.notifierNew, .chainViewNew, .connNew, .feeEstNew, .feeEstStart]
        env.walletCtrlOk env.walletNewOk env.walletStartOk
  else if cfg.litecoin.active then
    if !env.feeEstNewOk then
      ⟨none, none, some "unable to create litecoind fee estimator",
       [.notifierNew, .chainViewNew, .connNew, .feeEstNew]⟩
    else if !env.feeEstStartOk then
      ⟨none, none, some "unable to start litecoind fee estimator",
       [.notifierNew, .chainViewNew, .connNew, .feeEstNew, .feeEstStart]⟩
    else
      walletTail rp (.bitcoindLive 25) .bitcoindNotifier
        .bitcoindChainView none
        [.notifierNew, .chainViewNew, .connNew, .feeEstNew, .feeEstStart]
        env.walletCtrlOk env.walletNewOk env.walletStartOk
  else
    walletTail rp fe0 .bitcoindNotifier .bitcoindChainView none
      [.notifierNew, .chainViewNew, .connNew]
      env.walletCtrlOk env.walletNewOk env.walletStartOk

/-- Embedding of `(*bitcoindConfig).NewChainControlFromConfig`
(event-push backend).  The `cleanUp` variable of the source is declared
but never assigned, so the success path returns no cleanup actions. -/
def bitcoindNewChainControlFromConfig (conf : BitcoindConf)
    (primary : ChainCode) (cfg : Config) (np : NetParams)
    (env : BitcoindEnv) : BuildOut :=
  match basePolicy primary cfg with
  | none => ⟨none, none, some "Default routing policy for chain is unknown", []⟩
  | some (rp, fe0) =>
    match resolveBitcoindHost conf.rpcHost np.rpcPort cfg.bitcoin.active
        cfg.bitcoin.regTest env.dialOk with
    | .error e => ⟨none, none, some e, []⟩
    | .ok _bitcoindHost =>
      if !env.notifierOk then
        ⟨none, none, some "unable to create bitcoind notifier", [.notifierNew]⟩
      else if !env.chainViewOk then
        ⟨none, none, some "unable to create chain view",
         [.notifierNew, .chainViewNew]⟩
      else if !env.connOk then
        ⟨none, none, some "unable to create bitcoind rpc client",
         [.notifierNew, .chainViewNew, .connNew]⟩
      else
        bitcoindFeeSwitch rp fe0 cfg env

structure BtcdEnv where
  notifierOk : Bool
  chainViewOk : Bool
  connOk : Bool
  feeEstNewOk : Bool
  feeEstStartOk : Bool
  walletCtrlOk : Bool
  walletNewOk : Bool
  walletStartOk : Bool
deriving DecidableEq

/-- Embedding of `(*btcdConfig).NewChainControlFromConfig`
(streaming-socket backend).  The fee-estimator switch requires all four
of Bitcoin/Litecoin SimNet/RegTest flags to be off.  The `cleanUp`
variable is never assigned in this variant either. -/
def btcdNewChainControlFromConfig (conf : BtcdConf) (primary : ChainCode)
    (cfg : Config) (np : NetParams) (certFS : String → Option (List Nat))
    (env : BtcdEnv) : BuildOut :=
  match basePolicy primary cfg with
  | none => ⟨none, none, some "Default routing policy for chain is unknown", []⟩
  | some (rp, fe0) =>
    match loadRPCCert conf.rawRPCCert conf.rpcCert certFS with
    | .error e => ⟨none, none, some e, [.certRead]⟩
    | .ok _rpcCert =>
      if !env.notifierOk then
        ⟨none, none, some "unable to create btcd notifier",
         [.certRead, .notifierNew]⟩
      else if !env.chainViewOk then
        ⟨none, none, some "unable to create chain view",
         [.certRead, .notifierNew, .chainViewNew]⟩
      else if !env.connOk then
        ⟨none, none, some "unable to create btcd rpc client",
         [.certRead, .notifierNew, .chainViewNew, .connNew]⟩
      else
        if !cfg.bitcoin.simNet && !cfg.litecoin.simNet &&
            !cfg.bitcoin.regTest && !cfg.litecoin.regTest then
          if !env.feeEstNewOk then
            ⟨none, none, some "unable to create btcd fee estimator",
             [.certRead, .notifierNew, .chainViewNew, .connNew, .feeEstNew]⟩
          else if !env.feeEstStartOk then
            ⟨none, none, some "unable to start btcd fee estimator",
             [.certRead, .notifierNew, .chainViewNew, .connNew, .feeEstNew,
              .feeEstStart]⟩
          else
            walletTail rp (.btcdLive 25) .btcdNotifier .btcdChainView none
              [.certRead, .notifierNew, .chainViewNew, .connNew, .feeEstNew,
               .feeEstStart]
              env.walletCtrlOk env.walletNewOk env.walletStartOk
        else
          walletTail rp fe0 .btcdNotifier .btcdChainView none
            [.certRead, .notifierNew, .chainViewNew, .connNew]
            env.walletCtrlOk env.walletNewOk env.walletStartOk

structure NeutrinoEnv where
  mkdirOk : Bool
  dbCreateOk : Bool
  chainServiceOk : Bool
  notifierOk : Bool
  chainViewOk : Bool
  walletCtrlOk : Bool
  walletNewOk : Bool
  walletStartOk : Bool
deriving DecidableEq

/-- Embedding of `(*neutrinoConfig).NewChainControlFromConfig` (light
client).  `svc.Start()` runs unconditionally right after the chain
service is created, before the notifier, chain view, wallet controller
and wallet; `cleanUp` stops the service and closes the node database
and is returned only on the success path. -/
def neutrinoNewChainControlFromConfig (primary : ChainCode) (cfg : Config)
    (env : NeutrinoEnv) : BuildOut :=
  match basePolicy primary cfg with
  | none => ⟨none, none, some "Default routing policy for chain is unknown", []⟩
  | some (rp, fe0) =>
    if !env.mkdirOk then
      ⟨none, none, some "unable to create neutrino db path", [.mkdirAll]⟩
    else if !env.dbCreateOk then
      ⟨none, none, some "unable to create node database",
       [.mkdirAll, .dbCreate]⟩
    else if !env.chainServiceOk then
      ⟨none, none, some "unable to create neutrino",
       [.mkdirAll, .dbCreate]⟩
    else
      if !env.notifierOk then
        ⟨none, none, some "unable to create neutrino notifier",
         [.mkdirAll, .dbCreate, .svcStart, .notifierNew]⟩
      else if !env.chainViewOk then
        ⟨none, none, some "unable to create cf chain view",
         [.mkdirAll, .dbCreate, .svcStart, .notifierNew, .chainViewNew]⟩
      else
        walletTail rp fe0 .neutrinoNotifier .cfChainView
          (some [.svcStop, .dbClose])
          [.mkdirAll, .dbCreate, .svcStart, .notifierNew, .chainViewNew]
          env.walletCtrlOk env.walletNewOk env.walletStartOk

/-! ## Helper lemmas -/

theorem walletTail_err_shape (rp : RoutingPolicy) (fe : FeeEst) (nh vh : Handle)
    (cl : Option (List Event)) (tr : List Event) (w1 w2 w3 : Bool) :
    (walletTail rp fe nh vh cl tr w1 w2 w3).err = none ∨
    ((walletTail rp fe nh vh cl tr w1 w2 w3).cc = none ∧
     (walletTail rp fe nh vh cl tr w1 w2 w3).cleanup = none) := by
  unfold walletTail
  cases w1 <;> cases w2 <;> cases w3 <;> simp

theorem bitcoindBuild_shape (conf : BitcoindConf) (primary : ChainCode)
    (cfg : Config) (np : NetParams) (env : BitcoindEnv) :
    (bitcoindNewChainControlFromConfig conf primary cfg np env).err = none ∨
    ((bitcoindNewChainControlFromConfig conf primary cfg np env).cc = none ∧
     (bitcoindNewChainControlFromConfig conf primary cfg np env).cleanup = none) := by
  unfold bitcoindNewChainControlFromConfig bitcoindFeeSwitch
  repeat' split
  all_goals first
    | apply walletTail_err_shape
    | simp

theorem btcdBuild_shape (conf : BtcdConf) (primary : ChainCode) (cfg : Config)
    (np : NetParams) (certFS : String → Option (List Nat)) (env : BtcdEnv) :
    (btcdNewChainControlFromConfig conf primary cfg np certFS env).err = none ∨
    ((btcdNewChainControlFromConfig conf primary cfg np certFS env).cc = none ∧
     (btcdNewChainControlFromConfig conf primary cfg np certFS env).cleanup = none) := by
  unfold btcdNewChainControlFromConfig
  repeat' split
  all_goals first
    | apply walletTail_err_shape
    | simp

theorem neutrinoBuild_shape (primary : ChainCode) (cfg : Config)
    (env : NeutrinoEnv) :
    (neutrinoNewChainControlFromConfig primary cfg env).err = none ∨
    ((neutrinoNewChainControlFromConfig primary cfg env).cc = none ∧
     (neutrinoNewChainControlFromConfig primary cfg env).cleanup = none) := by
  unfold neutrinoNewChainControlFromConfig
  repeat' split
  all_goals first
    | apply walletTail_err_shape
    | simp

/-- Claim C1: for every backend variant, whenever the top-level
construction fails at any step, it returns no ChainControl bundle and no
cleanup handle — both results are nil alongside the error — so a
partially populated bundle is never returned to the caller. -/
theorem c1_failure_yields_no_bundle :
    (∀ (conf : BitcoindConf) (primary : ChainCode) (cfg : Config)
       (np : NetParams) (env : BitcoindEnv) (e : String),
       (bitcoindNewChainControlFromConfig conf primary cfg np env).err = some e →
       (bitcoindNewChainControlFromConfig conf primary cfg np env).cc = none ∧
       (bitcoindNewChainControlFromConfig conf primary cfg np env).cleanup = none) ∧
    (∀ (conf : BtcdConf) (primary : ChainCode) (cfg : Config) (np : NetParams)
       (certFS : String → Option (List Nat)) (env : BtcdEnv) (e : String),
       (btcdNewChainControlFromConfig conf primary cfg np certFS env).err = some e →
       (btcdNewChainControlFromConfig conf primary cfg np certFS env).cc = none ∧
       (btcdNewChainControlFromConfig conf primary cfg np certFS env).cleanup = none) ∧
    (∀ (primary : ChainCode) (cfg : Config) (env : NeutrinoEnv) (e : String),
       (neutrinoNewChainControlFromConfig primary cfg env).err = some e →
       (neutrinoNewChainControlFromConfig primary cfg env).cc = none ∧
       (neutrinoNewChainControlFromConfig primary cfg env).cleanup = none) := by
  refine ⟨?_, ?_, ?_⟩
  · intro conf primary cfg np env e h
    rcases bitcoindBuild_shape conf primary cfg np env with h0 | h0
    · rw [h] at h0; simp at h0
    · exact h0
  · intro conf primary cfg np certFS env e h
    rcases btcdBuild_shape conf primary cfg np certFS env with h0 | h0
    · rw [h] at h0; simp at h0
    · exact h0
  · intro primary cfg env e h
    rcases neutrinoBuild_shape primary cfg env with h0 | h0
    · rw [h] at h0; simp at h0
    · exact h0

theorem c1_witness :
    (neutrinoNewChainControlFromConfig .bitcoinChain
      ⟨⟨true, false, false, 1, 1, 1, 144, "/b"⟩,
       ⟨false, false, false, 0, 0, 0, 0, "/l"⟩⟩
      ⟨true, true, false, true, true, true, true, true⟩).cc = none ∧
    (neutrinoNewChainControlFromConfig .bitcoinChain
      ⟨⟨true, false, false, 1, 1, 1, 144, "/b"⟩,
       ⟨false, false, false, 0, 0, 0, 0, "/l"⟩⟩
      ⟨true, true, false, true, true, true, true, true⟩).cleanup = none :=
  c1_failure_yields_no_bundle.2.2 .bitcoinChain
    ⟨⟨true, false, false, 1, 1, 1, 144, "/b"⟩,
     ⟨false, false, false, 0, 0, 0, 0, "/l"⟩⟩
    ⟨true, true, false, true, true, true, true, true⟩
    "unable to create neutrino" (by decide)

/-- Claim C10: in the light-client builder the background sync service
is started before the notifier, chain view, wallet controller and
wallet are constructed, and on any later failure the builder returns
the error without stopping the service or closing the on-disk index
database — the cleanup handle that would release them is never returned
on any error path. -/
theorem c10_lightclient_service_lifetime :
    ∀ (primary : ChainCode) (cfg : Config) (env : NeutrinoEnv) (out : BuildOut),
      out = neutrinoNewChainControlFromConfig primary cfg env →
      (∀ e, out.err = some e →
        out.cc = none ∧ out.cleanup = none ∧
        Event.svcStop ∉ out.trace ∧ Event.dbClose ∉ out.trace) ∧
      (∀ b, b ∈ [Event.notifierNew, Event.chainViewNew,
                 Event.walletCtrlNew, Event.walletNew] →
        b ∈ out.trace →
        Event.svcStart ∈ out.trace.takeWhile (fun ev => decide (ev ≠ b))) := by
  intro primary cfg env out h
  unfold neutrinoNewChainControlFromConfig walletTail at h
  repeat' split at h
  all_goals subst h
  all_goals dsimp only
  all_goals refine ⟨fun e he => ?_, by decide⟩
  all_goals first
    | exact ⟨rfl, rfl, by decide, by decide⟩
    | simp at he

theorem c10_witness :
    Event.svcStart ∈
      ((neutrinoNewChainControlFromConfig .bitcoinChain
        ⟨⟨true, false, false, 1, 1, 1, 144, "/b"⟩,
         ⟨false, false, false, 0, 0, 0, 0, "/l"⟩⟩
        ⟨true, true, true, true, true, true, true, true⟩).trace.takeWhile
        (fun ev => decide (ev ≠ Event.notifierNew))) :=
  (c10_lightclient_service_lifetime .bitcoinChain
    ⟨⟨true, false, false, 1, 1, 1, 144, "/b"⟩,
     ⟨false, false, false, 0, 0, 0, 0, "/l"⟩⟩
    ⟨true, true, true, true, true, true, true, true⟩ _ rfl).2
    Event.notifierNew (by decide) (by decide)

/-- Claim C2, counterexample: on the event-push (bitcoind) backend with
Bitcoin active on a simulation network (SimNet set, RegTest unset), a
fully successful construction returns the live fee estimator, started,
not the static network default the claimed decision table requires for
private/simulation networks. -/
theorem c2_counterexample :
    (bitcoindNewChainControlFromConfig
      ⟨"user", "pass", "zmq", "/conf", "127.0.0.1:18556"⟩
      .bitcoinChain
      ⟨⟨true, true, false, 1, 1, 1, 144, "/b"⟩,
       ⟨false, false, false, 0, 0, 0, 0, "/l"⟩⟩
      ⟨"18556", "simnet"⟩
      ⟨true, true, true, true, true, true, true, true, true⟩).err = none ∧
    (bitcoindNewChainControlFromConfig
      ⟨"user", "pass", "zmq", "/conf", "127.0.0.1:18556"⟩
      .bitcoinChain
      ⟨⟨true, true, false, 1, 1, 1, 144, "/b"⟩,
       ⟨false, false, false, 0, 0, 0, 0, "/l"⟩⟩
      ⟨"18556", "simnet"⟩
      ⟨true, true, true, true, true, true, true, true, true⟩).cc.map
      ChainControl.feeEstimator = some (FeeEst.bitcoindLive 25) := by
  decide

/-- Claim C2, amended: the light client always keeps the static
network-specific default estimator.  The stream (btcd) backend selects
the live estimator, seeded with fallback rate 25 and started before
returning, exactly when none of the Bitcoin/Litecoin SimNet/RegTest
flags is set, and the static default otherwise.  The event (bitcoind)
backend selects the live estimator when Bitcoin is active and not on
regtest, or otherwise when Litecoin is active (regardless of simnet or
litecoin regtest), and the static default otherwise. -/
theorem c2_amended_fee_estimator_selection :
    (∀ (primary : ChainCode) (cfg : Config) (env : NeutrinoEnv) (out : BuildOut),
      out = neutrinoNewChainControlFromConfig primary cfg env →
      out.err = none →
      out.cc.map ChainControl.feeEstimator =
        (basePolicy primary cfg).map (fun x => x.2)) ∧
    (∀ (conf : BtcdConf) (primary : ChainCode) (cfg : Config) (np : NetParams)
       (certFS : String → Option (List Nat)) (env : BtcdEnv) (out : BuildOut),
      out = btcdNewChainControlFromConfig conf primary cfg np certFS env →
      out.err = none →
      (out.cc.map ChainControl.feeEstimator =
        (if !cfg.bitcoin.simNet && !cfg.litecoin.simNet &&
            !cfg.bitcoin.regTest && !cfg.litecoin.regTest
         then some (FeeEst.btcdLive 25)
         else (basePolicy primary cfg).map (fun x => x.2))) ∧
      (out.cc.map ChainControl.feeEstimator = some (FeeEst.btcdLive 25) →
        Event.feeEstStart ∈ out.trace)) ∧
    (∀ (conf : BitcoindConf) (primary : ChainCode) (cfg : Config)
       (np : NetParams) (env : BitcoindEnv) (out : BuildOut),
      out = bitcoindNewChainControlFromConfig conf primary cfg np env →
      out.err = none →
      (out.cc.map ChainControl.feeEstimator =
        (if cfg.bitcoin.active && !cfg.bitcoin.regTest
         then some (FeeEst.bitcoindLive 25)
         else if cfg.litecoin.active
         then some (FeeEst.bitcoindLive 25)
         else (basePolicy primary cfg).map (fun x => x.2))) ∧
      (out.cc.map ChainControl.feeEstimator = some (FeeEst.bitcoindLive 25) →
        Event.feeEstStart ∈ out.trace)) := by
  refine ⟨?_, ?_, ?_⟩
  · intro primary cfg env out h he
    unfold neutrinoNewChainControlFromConfig walletTail at h
    cases primary
    all_goals repeat' split at h
    all_goals subst h
    all_goals first
      | exact Option.noConfusion he
      | simp_all [basePolicy]
  · intro conf primary cfg np certFS env out h he
    unfold btcdNewChainControlFromConfig walletTail at h
    cases primary
    all_goals repeat' split at h
    all_goals subst h
    all_goals first
      | exact Option.noConfusion he
      | (refine ⟨?_, fun hfe => ?_⟩ <;>
         (repeat' split
          all_goals simp_all [basePolicy]))
  · intro conf primary cfg np env out h he
    unfold bitcoindNewChainControlFromConfig at h
    cases primary
    all_goals repeat' split at h
    all_goals try (unfold bitcoindFeeSwitch walletTail at h; repeat' split at h)
    all_goals subst h
    all_goals first
      | exact Option.noConfusion he
      | (refine ⟨?_, fun hfe => ?_⟩ <;>
         (repeat' split
          all_goals simp_all [basePolicy]))

theorem c2_amended_witness :
    (neutrinoNewChainControlFromConfig .bitcoinChain
      ⟨⟨true, true, false, 1, 1, 1, 144, "/b"⟩,
       ⟨false, false, false, 0, 0, 0, 0, "/l"⟩⟩
      ⟨true, true, true, true, true, true, true, true⟩).cc.map
      ChainControl.feeEstimator =
      (basePolicy .bitcoinChain
        ⟨⟨true, true, false, 1, 1, 1, 144, "/b"⟩,
         ⟨false, false, false, 0, 0, 0, 0, "/l"⟩⟩).map (fun x => x.2) :=
  c2_amended_fee_estimator_selection.1 .bitcoinChain
    ⟨⟨true, true, false, 1, 1, 1, 144, "/b"⟩,
     ⟨false, false, false, 0, 0, 0, 0, "/l"⟩⟩
    ⟨true, true, true, true, true, true, true, true⟩ _ rfl (by decide)

/-- Claim C3, counterexample: for the event-backend variant on an
active Bitcoin regtest network whose probe dial fails, a host without a
port separator resolves to the alternate port 18443, not to the
canonical port minus 2 (18334 - 2 = 18332). -/
theorem c3_counterexample :
    resolveBitcoindHost "localhost" "18334" true true false =
      .ok "localhost:18443" ∧
    ("localhost:18443" : String) ≠
      "localhost" ++ ":" ++ toString ((18334 : Int) - 2) := by
  decide

/-- Claim C3, amended: a host containing a port separator is used
verbatim by both variants.  Otherwise the stream variant appends the
canonical port and the event variant appends the canonical port minus
2 — except that when Bitcoin is active on regtest and the probe dial
fails, the well-known alternate port 18443 is substituted. -/
theorem c3_amended_host_resolution :
    ∀ (host portStr : String) (p : Int) (a r d : Bool),
      goAtoi portStr = some p →
      (host.toList.contains ':' = true →
        resolveBtcdHost host portStr = host ∧
        resolveBitcoindHost host portStr a r d = .ok host) ∧
      (host.toList.contains ':' = false →
        resolveBtcdHost host portStr = host ++ ":" ++ portStr ∧
        resolveBitcoindHost host portStr a r d =
          .ok (if a && r && !d then host ++ ":" ++ toString (18443 : Int)
               else host ++ ":" ++ toString (p - 2))) := by
  intro host portStr p a r d hp
  constructor
  · intro hc
    unfold resolveBtcdHost resolveBitcoindHost
    rw [if_pos hc, if_pos hc]
    exact ⟨rfl, rfl⟩
  · intro hc
    have hnc : ¬(host.toList.contains ':' = true) := by rw [hc]; exact Bool.false_ne_true
    unfold resolveBtcdHost resolveBitcoindHost
    rw [if_neg hnc, if_neg hnc, hp]
    refine ⟨rfl, ?_⟩
    cases a <;> cases r <;> cases d <;> simp

theorem c3_amended_witness :
    (("localhost").toList.contains ':' = true →
      resolveBtcdHost "localhost" "18334" = "localhost" ∧
      resolveBitcoindHost "localhost" "18334" false false true =
        .ok "localhost") ∧
    (("localhost").toList.contains ':' = false →
      resolveBtcdHost "localhost" "18334" = "localhost" ++ ":" ++ "18334" ∧
      resolveBitcoindHost "localhost" "18334" false false true =
        .ok (if false && false && !true
             then "localhost" ++ ":" ++ toString (18443 : Int)
             else "localhost" ++ ":" ++ toString ((18334 : Int) - 2))) :=
  c3_amended_host_resolution "localhost" "18334" 18334 false false true
    (by decide)

/-- Claim C4: when the event-backend config text has a discoverable
zmqpubrawblock key and the derived cookie file exists with contents
splitting into exactly two colon-separated fields, discovery returns
those two fields as user and password — regardless of any
rpcuser/rpcpassword keys present in the same config text (the
conclusion holds for every `contents`, so in particular when such keys
are present). -/
theorem c4_cookie_preferred :
    ∀ (contents defaultDataDir : List Char) (netName : String)
      (readCookie : List Char → Option (List Char)) (z ck u p : List Char),
      scanKey zmqKeyChars contents = some z →
      readCookie (bitcoindCookiePath contents defaultDataDir netName) = some ck →
      splitOnColon ck = [u, p] →
      extractBitcoindRPCParams (some contents) defaultDataDir netName
        readCookie = .ok (u, p, z) := by
  intro contents dd nn rc z ck u p hz hck hsplit
  simp only [extractBitcoindRPCParams, hz, hck, hsplit]

theorem c4_witness :
    extractBitcoindRPCParams
      (some "zmqpubrawblock=tcp://127.0.0.1:28332\nrpcuser=alice\nrpcpassword=secret".toList)
      "/home/u/.bitcoin".toList "mainnet"
      (fun _ => some "bob:hunter2".toList) =
      .ok ("bob".toList, "hunter2".toList, "tcp://127.0.0.1:28332".toList) :=
  c4_cookie_preferred
    "zmqpubrawblock=tcp://127.0.0.1:28332\nrpcuser=alice\nrpcpassword=secret".toList
    "/home/u/.bitcoin".toList "mainnet" (fun _ => some "bob:hunter2".toList)
    "tcp://127.0.0.1:28332".toList "bob:hunter2".toList
    "bob".toList "hunter2".toList (by decide) rfl (by decide)

/-- Claim C5, counterexample: a config text containing exactly the
lines rpcuser=alice and rpcpassword=secret, with no cookie file, makes
event-backend discovery fail (no zmqpubrawblock key) instead of
returning the pair, so the claim as stated does not hold. -/
theorem c5_counterexample :
    extractBitcoindRPCParams
      (some "rpcuser=alice\nrpcpassword=secret".toList)
      "/d".toList "mainnet" (fun _ => none) =
      .error "unable to find zmqpubrawblock in config" := by
  decide

/-- Claim C5, amended: for every event-backend config text that also
contains a discoverable zmqpubrawblock key, whose first rpcuser match
is `u` and first rpcpassword match is `p`, and whose derived cookie
file is absent, discovery succeeds and returns `(u, p)`; and for every
stream-backend config text whose first rpcuser and rpcpass (not
rpcpassword) matches are `u` and `p`, discovery succeeds and returns
`(u, p)`. -/
theorem c5_amended_scan_discovery :
    (∀ (contents defaultDataDir : List Char) (netName : String)
       (readCookie : List Char → Option (List Char)) (z u p : List Char),
      scanKey zmqKeyChars contents = some z →
      readCookie (bitcoindCookiePath contents defaultDataDir netName) = none →
      scanKey rpcuserKeyChars contents = some u →
      scanKey rpcpasswordKeyChars contents = some p →
      extractBitcoindRPCParams (some contents) defaultDataDir netName
        readCookie = .ok (u, p, z)) ∧
    (∀ (contents u p : List Char),
      scanKey rpcuserKeyChars contents = some u →
      scanKey rpcpassKeyChars contents = some p →
      extractBtcdRPCParams (some contents) = .ok (u, p)) := by
  constructor
  · intro contents dd nn rc z u p hz hck hu hp
    simp only [extractBitcoindRPCParams, hz, hck, hu, hp]
  · intro contents u p hu hp
    simp only [extractBtcdRPCParams, hu, hp]

theorem c5_amended_witness :
    extractBitcoindRPCParams
      (some "zmqpubrawblock=tcp://127.0.0.1:28332\nrpcuser=alice\nrpcpassword=secret".toList)
      "/d".toList "mainnet" (fun _ => none) =
      .ok ("alice".toList, "secret".toList, "tcp://127.0.0.1:28332".toList) :=
  c5_amended_scan_discovery.1
    "zmqpubrawblock=tcp://127.0.0.1:28332\nrpcuser=alice\nrpcpassword=secret".toList
    "/d".toList "mainnet" (fun _ => none) "tcp://127.0.0.1:28332".toList
    "alice".toList "secret".toList (by decide) rfl (by decide) (by decide)

/-- Claim C6, counterexample: with no inline certificate and a
readable but empty certificate file, neither source yields non-empty
TLS bytes, yet stream-backend construction succeeds (with empty
certificate bytes) instead of failing. -/
theorem c6_counterexample :
    loadRPCCert "" "/c/rpc.cert"
      (fun path => if path = "/c/rpc.cert" then some [] else none) =
      .ok [] ∧
    (btcdNewChainControlFromConfig
      ⟨"u", "p", "", "/c/rpc.cert", "/d", "h:18334"⟩
      .bitcoinChain
      ⟨⟨true, false, false, 1, 1, 1, 144, "/b"⟩,
       ⟨false, false, false, 0, 0, 0, 0, "/l"⟩⟩
      ⟨"18334", "mainnet"⟩
      (fun path => if path = "/c/rpc.cert" then some [] else none)
      ⟨true, true, true, true, true, true, true, true⟩).err = none := by
  decide

/-- Claim C6, amended: in the stream-backend builder the inline hex
certificate takes precedence whenever it is non-empty (the file is then
ignored), otherwise the certificate file is read.  Both sources absent
(the empty path cannot be opened), or the inline certificate set but
not decodable, is a fatal construction error; the resulting bytes are
not checked for non-emptiness. -/
theorem c6_amended_cert_failures :
    (∀ (conf : BtcdConf) (primary : ChainCode) (cfg : Config) (np : NetParams)
       (certFS : String → Option (List Nat)) (env : BtcdEnv),
      conf.rawRPCCert = "" → certFS conf.rpcCert = none →
      ∃ e, (btcdNewChainControlFromConfig conf primary cfg np certFS env).err =
        some e) ∧
    (∀ (conf : BtcdConf) (primary : ChainCode) (cfg : Config) (np : NetParams)
       (certFS : String → Option (List Nat)) (env : BtcdEnv),
      conf.rawRPCCert ≠ "" → hexDecodeString conf.rawRPCCert = none →
      ∃ e, (btcdNewChainControlFromConfig conf primary cfg np certFS env).err =
        some e) := by
  constructor
  · intro conf primary cfg np certFS env h1 h2
    have hcert : loadRPCCert conf.rawRPCCert conf.rpcCert certFS =
        .error "unable to read RPC cert file" := by
      unfold loadRPCCert
      rw [if_neg (by simp [h1]), h2]
    unfold btcdNewChainControlFromConfig
    cases primary <;> simp only [basePolicy] <;> (try rw [hcert]) <;> exact ⟨_, rfl⟩
  · intro conf primary cfg np certFS env h1 h2
    have hcert : loadRPCCert conf.rawRPCCert conf.rpcCert certFS =
        .error "invalid hex in rawrpccert" := by
      unfold loadRPCCert
      rw [if_pos h1, h2]
    unfold btcdNewChainControlFromConfig
    cases primary <;> simp only [basePolicy] <;> (try rw [hcert]) <;> exact ⟨_, rfl⟩

theorem c6_amended_witness :
    ∃ e, (btcdNewChainControlFromConfig
      ⟨"u", "p", "", "/absent.cert", "/d", "h:18334"⟩
      .bitcoinChain
      ⟨⟨true, false, false, 1, 1, 1, 144, "/b"⟩,
       ⟨false, false, false, 0, 0, 0, 0, "/l"⟩⟩
      ⟨"18334", "mainnet"⟩
      (fun _ => none)
      ⟨true, true, true, true, true, true, true, true⟩).err = some e :=
  c6_amended_cert_failures.1
    ⟨"u", "p", "", "/absent.cert", "/d", "h:18334"⟩
    .bitcoinChain
    ⟨⟨true, false, false, 1, 1, 1, 144, "/b"⟩,
     ⟨false, false, false, 0, 0, 0, 0, "/l"⟩⟩
    ⟨"18334", "mainnet"⟩ (fun _ => none)
    ⟨true, true, true, true, true, true, true, true⟩ rfl rfl

/-- Claim C7: the stream-backend credential scan, on a config text that
has an rpcuser key but no rpcpass key, fails with the message `unable
to find rpcuser in config` — naming rpcuser, which is present, instead
of the actually missing key rpcpass.  The code contradicts its own
comment (which says that a missing pass is what triggers this error):
the error string was copied from the rpcuser branch. -/
theorem c7_wrong_key_named :
    extractBtcdRPCParams (some "rpcuser=alice".toList) =
      .error "unable to find rpcuser in config" ∧
    scanKey rpcuserKeyChars "rpcuser=alice".toList = some "alice".toList ∧
    scanKey rpcpassKeyChars "rpcuser=alice".toList = none := by
  decide

/-- Claim C8: for every backend variant, when all credential fields the
variant requires are explicitly set, ParseRPCParams returns exactly
those values unchanged; no file I/O occurs, which is captured by the
result being the same for every filesystem (`fs`, `readCookie`) it
could have consulted.  The light client requires no fields and always
succeeds without consulting anything. -/
theorem c8_explicit_credentials_no_io :
    (∀ (conf : BitcoindConf) (cConfig : ChainConfig) (net : ChainCode)
       (funcName : String) (fs readCookie : List Char → Option (List Char))
       (netName : String),
      conf.rpcUser ≠ "" → conf.rpcPass ≠ "" → conf.zmqPath ≠ "" →
      bitcoindParseRPCParams conf cConfig net funcName fs readCookie netName =
        .ok conf) ∧
    (∀ (conf : BtcdConf) (cConfig : ChainConfig) (net : ChainCode)
       (funcName : String) (fs : List Char → Option (List Char)),
      conf.rpcUser ≠ "" → conf.rpcPass ≠ "" →
      btcdParseRPCParams conf cConfig net funcName fs = .ok conf) ∧
    (∀ (cConfig : ChainConfig) (net : ChainCode) (funcName : String),
      neutrinoParseRPCParams cConfig net funcName = .ok ()) := by
  refine ⟨?_, ?_, ?_⟩
  · intro conf cConfig net funcName fs rc nn h1 h2 h3
    unfold bitcoindParseRPCParams
    rw [if_pos ⟨h1, h2, h3⟩]
  · intro conf cConfig net funcName fs h1 h2
    unfold btcdParseRPCParams
    rw [if_pos ⟨h1, h2⟩]
  · intro cConfig net funcName
    rfl

theorem c8_witness :
    bitcoindParseRPCParams ⟨"alice", "secret", "tcp://x", "/d", "h"⟩
      ⟨true, false, false, 1, 1, 1, 144, "/b"⟩ .bitcoinChain "loadConfig"
      (fun _ => none) (fun _ => none) "mainnet" =
      .ok ⟨"alice", "secret", "tcp://x", "/d", "h"⟩ :=
  c8_explicit_credentials_no_io.1 ⟨"alice", "secret", "tcp://x", "/d", "h"⟩
    ⟨true, false, false, 1, 1, 1, 144, "/b"⟩ .bitcoinChain "loadConfig"
    (fun _ => none) (fun _ => none) "mainnet"
    (by decide) (by decide) (by decide)

/-- Claim C9: supplying some but not all of the credential fields a
variant requires (in particular exactly one of them) always makes
ParseRPCParams fail.  The light client requires no fields, so the
property is vacuous there; the two full-node variants are covered. -/
theorem c9_partial_credentials_error :
    (∀ (conf : BitcoindConf) (cConfig : ChainConfig) (net : ChainCode)
       (funcName : String) (fs readCookie : List Char → Option (List Char))
       (netName : String),
      (conf.rpcUser ≠ "" ∨ conf.rpcPass ≠ "" ∨ conf.zmqPath ≠ "") →
      ¬(conf.rpcUser ≠ "" ∧ conf.rpcPass ≠ "" ∧ conf.zmqPath ≠ "") →
      ∃ e, bitcoindParseRPCParams conf cConfig net funcName fs readCookie
        netName = .error e) ∧
    (∀ (conf : BtcdConf) (cConfig : ChainConfig) (net : ChainCode)
       (funcName : String) (fs : List Char → Option (List Char)),
      (conf.rpcUser ≠ "" ∨ conf.rpcPass ≠ "") →
      ¬(conf.rpcUser ≠ "" ∧ conf.rpcPass ≠ "") →
      ∃ e, btcdParseRPCParams conf cConfig net funcName fs = .error e) := by
  constructor
  · intro conf cConfig net funcName fs rc nn hsome hnotall
    unfold bitcoindParseRPCParams
    rw [if_neg hnotall, if_pos hsome]
    exact ⟨_, rfl⟩
  · intro conf cConfig net funcName fs hsome hnotall
    unfold btcdParseRPCParams
    rw [if_neg hnotall, if_pos hsome]
    exact ⟨_, rfl⟩

theorem c9_witness :
    ∃ e, bitcoindParseRPCParams ⟨"alice", "", "", "/d", "h"⟩
      ⟨true, false, false, 1, 1, 1, 144, "/b"⟩ .bitcoinChain "loadConfig"
      (fun _ => none) (fun _ => none) "mainnet" = .error e :=
  c9_partial_credentials_error.1 ⟨"alice", "", "", "/d", "h"⟩
    ⟨true, false, false, 1, 1, 1, 144, "/b"⟩ .bitcoinChain "loadConfig"
    (fun _ => none) (fun _ => none) "mainnet"
    (Or.inl (by decide)) (by decide)
